import Mathlib

/-!
Shallow embedding of the forgetting-system core (v2) and proofs about it.

Each definition below is translated from one function or data structure of
the Python source tree; the source file and symbol are named in its doc
comment.  Python floats are modelled exactly as rationals, Python ints as
integers, Python dicts either as association lists or as functions into
`Option`, and exceptions as `Except` values.
-/

namespace Manggaak

/-! ## Ledger (core/ledger.py)

The SHA-256 hex digest of the JSON serialization used by `Ledger.log` is
modelled as a parameter `H : α → String → String`, where `H body prev`
stands for `sha256(json.dumps(body with prev_hash := prev)).hexdigest()`:
the payload hashed by the source includes every event field and the
`prev_hash` field, and excludes the `hash` field (which is assigned only
after the digest is computed). -/

/-- One appended ledger event: the caller-supplied body plus the two
fields `Ledger.log` adds before appending. -/
structure LedgerEntry (α : Type) where
  body : α
  prev_hash : String
  hash : String
deriving Repr, DecidableEq

/-- Source `Ledger.__init__`: an empty event list and `_last_hash = ""`. -/
structure Ledger (α : Type) where
  events : List (LedgerEntry α)
  last_hash : String
deriving Repr, DecidableEq

/-- A freshly constructed ledger. -/
def Ledger.empty (α : Type) : Ledger α := { events := [], last_hash := "" }

/-- Source `Ledger.log`: set `prev_hash` to the stored `_last_hash`, hash the
serialized event (body plus `prev_hash`, no `hash` field) with `H`,
store the digest as both the entry's `hash` and the new `_last_hash`,
and append the entry. -/
def Ledger.log (H : α → String → String) (l : Ledger α) (event : α) : Ledger α :=
  let ph := l.last_hash
  let h := H event ph
  { events := l.events ++ [{ body := event, prev_hash := ph, hash := h }],
    last_hash := h }

/-- A whole sequence of `Ledger.log` calls. -/
def Ledger.logAll (H : α → String → String) (l : Ledger α) (events : List α) : Ledger α :=
  events.foldl (Ledger.log H) l

/-- The chain of entries produced by logging `events` when the current
`_last_hash` is `prev`. -/
def chainEntries (H : α → String → String) : String → List α → List (LedgerEntry α)
  | _, [] => []
  | prev, e :: rest =>
    let h := H e prev
    { body := e, prev_hash := prev, hash := h } :: chainEntries H h rest

/-! ## Budget and reversibility state (core/context_manager.py) -/

/-- Source `ReversibilityState.advance`: assign `new_stage` only when it exceeds
the current stage. -/
def advance (stage new_stage : ℤ) : ℤ :=
  if new_stage > stage then new_stage else stage

/-- The stage after a sequence of `advance` calls. -/
def advanceAll (stage : ℤ) (ns : List ℤ) : ℤ :=
  ns.foldl advance stage

/-- Source `BudgetState`: budgets and utilization counters. -/
structure BudgetState where
  storage_budget : ℚ
  semantic_budget : ℚ
  storage_util : ℚ
  semantic_util : ℚ
deriving Repr, DecidableEq

/-- Source `BudgetState.__init__` with its default budgets. -/
def BudgetState.init : BudgetState :=
  { storage_budget := 1, semantic_budget := 1, storage_util := 0, semantic_util := 0 }

/-- Source `BudgetState.record_usage`: add each delta and clamp the counter at
zero. -/
def recordUsage (b : BudgetState) (storage_delta semantic_delta : ℚ) : BudgetState :=
  { b with
    storage_util := max 0 (b.storage_util + storage_delta),
    semantic_util := max 0 (b.semantic_util + semantic_delta) }

/-- Source `ContextManager`: the shared budget state plus the reversibility
stage. -/
structure Context where
  budget : BudgetState
  reversibility : ℤ
deriving Repr, DecidableEq

/-! ## Score vector (core/multidimensional_analyzer.py) -/

/-- Source `ScoreVector`: the seven axis scores. -/
structure ScoreVector where
  importance : ℚ
  usage : ℚ
  semantic : ℚ
  temporal : ℚ
  context : ℚ
  risk : ℚ
  redundancy : ℚ
deriving Repr, DecidableEq

/-- Model of `_clip01` from multidimensional_analyzer.py (the same clamp also ends
`DecisionEngine._aggregate`). -/
def clip01 (x : ℚ) : ℚ := max 0 (min 1 x)

/-! ## Metadata (the `meta` dict, as read by the decision engine and the
strategy handlers)

Python truthiness of the flag entries is modelled as `Bool` (an absent key
and a falsy value behave identically in every `meta.get(...)` read of the
source).  Entries read as strings or numbers are modelled as `Option`
values, `none` standing for an absent key. -/

structure Meta where
  regulatory_hold : Bool := false
  protected_class : Bool := false
  dataClass : Option String := none
  pii : Bool := false
  allow_processing : Bool := false
  approval_token : Bool := false
  mask_profile : Option String := none
  allow_irreversible : Bool := false
  size_bytes : Option ℚ := none
  content : Option String := none
deriving Repr, DecidableEq

/-! ## Decision engine (core/decision_engine.py) -/

/-- Plan parameters used by the source: `profile` (masking) and `lossy`
(compression). -/
structure Params where
  profile : Option String := none
  lossy : Bool := false
deriving Repr, DecidableEq

/-- Source `StrategyPlan` dataclass. -/
structure StrategyPlan where
  action : String
  params : Params := {}
  rationale : Option String := none
  target_stage : Option ℤ := none
deriving Repr, DecidableEq

/-- The per-axis weight table (`DecisionEngine.__init__` builds it with
exactly these seven keys). -/
structure Weights where
  importance : ℚ
  usage : ℚ
  semantic : ℚ
  temporal : ℚ
  context : ℚ
  risk : ℚ
  redundancy : ℚ
deriving Repr, DecidableEq

/-- The threshold table (`preserve/compress/mask/archive`). -/
structure Thresholds where
  preserve : ℚ
  compress : ℚ
  mask : ℚ
  archive : ℚ
deriving Repr, DecidableEq

/-- A per-class policy override entry. -/
structure ClassPolicy where
  action : String := "retain"
  params : Params := {}
deriving Repr, DecidableEq

/-- Source `DecisionEngine` configuration state. -/
structure DecisionEngine where
  weights : Weights
  thresholds : Thresholds
  risk_keep_threshold : ℚ
  pii_protect : Bool
  class_policies : List (String × ClassPolicy)
deriving Repr, DecidableEq

/-- Source `DecisionEngine.__init__` defaults: weights 0.3/0.25/0.2/0.15/0.1
with risk and redundancy at 0.0, thresholds 0.6/0.5/0.35/0.2,
`risk_keep_threshold = 0.7`, `pii_protect = True`, no class policies. -/
def DecisionEngine.default : DecisionEngine :=
  { weights := { importance := 0.3, usage := 0.25, semantic := 0.2,
                 temporal := 0.15, context := 0.1, risk := 0, redundancy := 0 },
    thresholds := { preserve := 0.6, compress := 0.5, mask := 0.35, archive := 0.2 },
    risk_keep_threshold := 0.7,
    pii_protect := true,
    class_policies := [] }

/-- Source `DecisionEngine._aggregate`: weighted sum over the weight table's keys,
then the fixed `- 0.25 * redundancy + 0.2 * risk` adjustment, clamped to
[0,1].  (The source's `meta` parameter is unused by the function body.) -/
def DecisionEngine.aggregate (e : DecisionEngine) (s : ScoreVector) : ℚ :=
  let base := e.weights.importance * s.importance + e.weights.usage * s.usage +
    e.weights.semantic * s.semantic + e.weights.temporal * s.temporal +
    e.weights.context * s.context + e.weights.risk * s.risk +
    e.weights.redundancy * s.redundancy
  clip01 (base - 0.25 * s.redundancy + 0.2 * s.risk)

/-- The budget snapshot handed to `select` (`BudgetState.to_dict`), or
`none` when the caller passes `budget_state=None`. -/
def DecisionEngine.budgetPressure (b : Option BudgetState) : Bool :=
  match b with
  | none => false
  | some bs => bs.storage_budget ≤ bs.storage_util

/-- Class-policy lookup: `data_class and data_class in self.class_policies`
(an empty string is falsy in the source, so it never matches). -/
def DecisionEngine.classPolicy (e : DecisionEngine) (m : Meta) : Option ClassPolicy :=
  match m.dataClass with
  | none => none
  | some c => if c = "" then none else (e.class_policies.lookup c)

/-- The threshold cascade at the bottom of `DecisionEngine.select` (the
code after the irreversibility gate). -/
def DecisionEngine.selectByScore (e : DecisionEngine) (agg : ℚ) (pressure : Bool)
    (scores : ScoreVector) (meta : Meta) : StrategyPlan :=
  if e.thresholds.preserve ≤ agg then
    { action := "preserve", rationale := some "High composite score" }
  else if e.thresholds.compress ≤ agg then
    { action := "compress", params := { lossy := false },
      rationale := some "Mid score -> lossless compression" }
  else if e.thresholds.mask ≤ agg then
    if 0.55 ≤ scores.semantic ∧ 0.45 ≤ scores.importance then
      { action := "semantic_preserve", rationale := some "Semantic value high -> preserve summary" }
    else
      { action := "mask", params := { profile := some (meta.mask_profile.getD "X+Y") },
        rationale := some "Low-mid score -> masking" }
  else if e.thresholds.archive ≤ agg then
    { action := "archive", rationale := some "Very low score -> archive" }
  else if pressure then
    { action := "delete", rationale := some "Budget pressure -> delete" }
  else
    { action := "archive", rationale := some "Low score but no pressure -> archive" }

/-- Source `DecisionEngine.select`: the full rule cascade, in source order. -/
def DecisionEngine.select (e : DecisionEngine) (scores : ScoreVector) (meta : Meta)
    (budget : Option BudgetState) (reversibility : Option ℤ) : StrategyPlan :=
  let agg := e.aggregate scores
  let pressure := DecisionEngine.budgetPressure budget
  if meta.regulatory_hold then
    { action := "retain", rationale := some "Regulatory hold" }
  else if meta.protected_class then
    { action := "preserve", rationale := some "Protected class" }
  else match e.classPolicy meta with
  | some pol =>
    { action := pol.action, params := pol.params,
      rationale := some "Class policy" }
  | none =>
    if e.pii_protect = true ∧ meta.pii = true ∧ meta.allow_processing = false then
      { action := "mask", params := { profile := some (meta.mask_profile.getD "X+Y") },
        rationale := some "PII protection" }
    else if e.pii_protect = true ∧ meta.pii = true ∧ meta.approval_token = false then
      { action := "retain", rationale := some "PII processing requires approval token" }
    else if e.risk_keep_threshold ≤ scores.risk ∧ meta.allow_processing = false then
      { action := "preserve", rationale := some "High risk -> preserve" }
    else match reversibility with
    | some r =>
      if 7 ≤ r then
        if meta.allow_irreversible then
          if !meta.approval_token then
            { action := "retain", rationale := some "Irreversible requires approval token" }
          else
            { action := "key_destroy", target_stage := some 9,
              rationale := some "Irreversible gate approved" }
        else
          { action := "retain", rationale := some "Irreversible gate blocked" }
      else e.selectByScore agg pressure scores meta
    | none => e.selectByScore agg pressure scores meta

/-! ## Masking profiles (strategies/masking.py)

`MASKING_PROFILES` is a literal table in the source; every number below is
copied verbatim (decimal literals are exact rationals). -/

structure ProfileData where
  mask_rate : ℚ
  score : ℚ
deriving Repr, DecidableEq

/-- The literal `MASKING_PROFILES` table. -/
def MASKING_PROFILES : List (String × ProfileData) :=
  [("X", { mask_rate := 0.50, score := 3 }),
   ("Y", { mask_rate := 0.25, score := 2 }),
   ("Z", { mask_rate := 0.33, score := 2.5 }),
   ("T", { mask_rate := 0.66, score := 4 }),
   ("X+Y", { mask_rate := 0.625, score := 5 }),
   ("X+Z", { mask_rate := 0.665, score := 5.5 }),
   ("X+T", { mask_rate := 0.83, score := 7 }),
   ("Y+Z", { mask_rate := 0.4925, score := 4.5 }),
   ("Y+T", { mask_rate := 0.745, score := 6 }),
   ("Z+T", { mask_rate := 0.7778, score := 6.5 }),
   ("X+Y+Z", { mask_rate := 0.74125, score := 7.5 }),
   ("X+Y+T", { mask_rate := 0.89125, score := 8.5 }),
   ("X+Z+T", { mask_rate := 0.94445, score := 9 }),
   ("Y+Z+T", { mask_rate := 0.86335, score := 8 }),
   ("X+Y+Z+T", { mask_rate := 0.96667, score := 10 })]

/-- Table lookup (`MASKING_PROFILES.get(profile, MASKING_PROFILES["X+Y"])`
falls back to the `X+Y` entry). -/
def profileData (name : String) : ProfileData :=
  (MASKING_PROFILES.lookup name).getD { mask_rate := 0.625, score := 5 }

/-- The spec's combination formula `1 - prod (1 - rate_d)` over the
selected dimensions' rates (this is the formula the spec asserts the
table realizes; the table itself is hard-coded). -/
def combinedRate (rates : List ℚ) : ℚ :=
  1 - (rates.map (fun r => 1 - r)).prod

/-- The single-dimension rates of the table, by dimension name. -/
def dimRate (d : String) : ℚ := (profileData d).mask_rate

/-! ## Strategy handlers (strategies/*.py)

Each handler is modelled as its effect on the shared `Context` plus the
result fields the rest of the verified code reads (`status` and the
feedback event's `type`; fields consumed by nothing under verification,
such as `redacted_preview` and `summary`, are elided).  The `item`
argument only ever backs up the `content` metadata key, which is modelled
by `Meta.content`. -/

structure ApplyResult where
  status : String
  feedbackType : String
deriving Repr, DecidableEq

/-- Model of `meta.get("size_bytes", 1.0)`. -/
def Meta.sizeDefault1 (m : Meta) : ℚ := m.size_bytes.getD 1

/-- Source `PredictiveCaching.apply` (registered for both `preserve` and
`retain`): advance to stage 0, no budget change. -/
def predictiveCachingApply (_meta : Meta) (_plan : StrategyPlan) (ctx : Context) :
    ApplyResult × Context :=
  ({ status := "retained", feedbackType := "cache_retain" },
   { ctx with reversibility := advance ctx.reversibility 0 })

/-- Source `Masking.apply`: profile from the plan params (falsy value falls back
to `"X+Y"`), advance to stage 4, free `size * mask_rate * 0.5`. -/
def maskingApply (meta : Meta) (plan : StrategyPlan) (ctx : Context) :
    ApplyResult × Context :=
  let profile :=
    match plan.params.profile with
    | some s => if s = "" then "X+Y" else s
    | none => "X+Y"
  let pd := profileData profile
  let ctx := { ctx with reversibility := advance ctx.reversibility 4 }
  let size := meta.sizeDefault1
  let saved := size * pd.mask_rate * 0.5
  ({ status := "masked", feedbackType := "mask_applied" },
   { ctx with budget := recordUsage ctx.budget (-saved) 0 })

/-- Source `GradualCompression.apply`: advance to stage 1 (then 5 when lossy);
the gzip backend is the external collaborator `gz`, giving the compressed
size of a string content; the saved bytes are clamped at 0 and floored at
30% of the size when lossy. -/
def compressionApply (gz : String → ℚ) (meta : Meta) (plan : StrategyPlan) (ctx : Context) :
    ApplyResult × Context :=
  let ctx := { ctx with reversibility := advance ctx.reversibility 1 }
  let lossy := plan.params.lossy
  let ctx := if lossy then { ctx with reversibility := advance ctx.reversibility 5 } else ctx
  let size :=
    match meta.size_bytes with
    | some s => s
    | none => match meta.content with
              | some c => (c.length : ℚ)
              | none => 1
  let compressed_size :=
    match meta.content with
    | some c => gz c
    | none => size
  let saved := max 0 (size - compressed_size)
  let saved := if lossy then max saved (size * 0.3) else saved
  ({ status := if lossy then "compressed_lossy" else "compressed_lossless",
     feedbackType := "compress_success" },
   { ctx with budget := recordUsage ctx.budget (-saved) 0 })

/-- Source `SemanticPreservation.apply`: advance to stage 6, free 70% of the
size (the summarizer collaborator's output is elided). -/
def semanticPreservationApply (meta : Meta) (_plan : StrategyPlan) (ctx : Context) :
    ApplyResult × Context :=
  let ctx := { ctx with reversibility := advance ctx.reversibility 6 }
  let size :=
    match meta.size_bytes with
    | some s => s
    | none => match meta.content with
              | some c => (c.length : ℚ)
              | none => 1
  let saved := size * 0.7
  ({ status := "semantic_preserved", feedbackType := "semantic_preserve" },
   { ctx with budget := recordUsage ctx.budget (-saved) 0 })

/-- Source `Archive.apply`: free 50% of the declared size; no stage advance. -/
def archiveApply (meta : Meta) (_plan : StrategyPlan) (ctx : Context) :
    ApplyResult × Context :=
  let size := meta.sizeDefault1
  let saved := size * 0.5
  ({ status := "archived", feedbackType := "archived" },
   { ctx with budget := recordUsage ctx.budget (-saved) 0 })

/-- Source `Delete.apply`: advance to stage 7, free the full declared size. -/
def deleteApply (meta : Meta) (_plan : StrategyPlan) (ctx : Context) :
    ApplyResult × Context :=
  let ctx := { ctx with reversibility := advance ctx.reversibility 7 }
  let size := meta.sizeDefault1
  ({ status := "deleted", feedbackType := "deleted" },
   { ctx with budget := recordUsage ctx.budget (-size) 0 })

/-- Source `KeyDestroy.apply`: blocked without `allow_irreversible`; otherwise
advance to stage 9 and free the full declared size. -/
def keyDestroyApply (meta : Meta) (_plan : StrategyPlan) (ctx : Context) :
    ApplyResult × Context :=
  if !meta.allow_irreversible then
    ({ status := "blocked", feedbackType := "irreversible_blocked" }, ctx)
  else
    let ctx := { ctx with reversibility := advance ctx.reversibility 9 }
    let size := meta.sizeDefault1
    ({ status := "key_destroyed", feedbackType := "irreversible_success" },
     { ctx with budget := recordUsage ctx.budget (-size) 0 })

/-- Source `build_default_registry` (core/strategy_registry.py): action name →
handler. -/
def registry (gz : String → ℚ) (action : String) :
    Option (Meta → StrategyPlan → Context → ApplyResult × Context) :=
  if action = "compress" then some (compressionApply gz)
  else if action = "semantic_preserve" then some semanticPreservationApply
  else if action = "preserve" then some predictiveCachingApply
  else if action = "mask" then some maskingApply
  else if action = "archive" then some archiveApply
  else if action = "delete" then some deleteApply
  else if action = "key_destroy" then some keyDestroyApply
  else if action = "retain" then some predictiveCachingApply
  else none

/-! ## Learning optimizer (core/learning_optimizer.py) -/

/-- Source `LearningOptimizer.update` restricted to its effect on the attached
decision engine's thresholds (an empty event type or an unknown type is a
no-op). -/
def learningUpdate (t : Thresholds) (eventType : String) : Thresholds :=
  if eventType = "" then t
  else if eventType = "false_positive_delete" then
    { t with archive := min 0.4 (t.archive + 0.05), mask := min 0.5 (t.mask + 0.05) }
  else if eventType = "unnecessary_retain" then
    { t with archive := max 0.1 (t.archive - 0.05), mask := max 0.25 (t.mask - 0.05) }
  else t

/-! ## Orchestrator (core/intelligent_forgetting.py)

`process_item`'s call to the analyzer is modelled by taking the resulting
`ScoreVector` as an argument (the axis scorers are external collaborators
per the spec's scope).  The ledger's digest collaborator `H` and the gzip
collaborator `gz` are passed through. -/

/-- The explicit constraint flags stored in each ledger record. -/
structure Constraints where
  regulatory_hold : Bool
  protected_class : Bool
  pii : Bool
  allow_irreversible : Bool
  approval_token : Bool
deriving Repr, DecidableEq

/-- The record `process_item` assembles and appends (metadata's raw
`content`/`payload` entries are excluded; the remaining redacted metadata
is the `Meta` fields minus `content`, which the record's other fields
already carry). -/
structure LedgerRecord where
  scores : ScoreVector
  plan : StrategyPlan
  result : ApplyResult
  contextBudget : BudgetState
  contextStage : ℤ
  policyThresholds : Thresholds
  policyClasses : List (String × ClassPolicy)
  constraints : Constraints
deriving Repr, DecidableEq

/-- The orchestrator's mutable collaborators. -/
structure SystemState where
  engine : DecisionEngine
  ctx : Context
  ledger : Ledger LedgerRecord
deriving Repr, DecidableEq

/-- Source `IntelligentForgettingSystem.process_item`: snapshot → select →
strategy apply → learning update → post-strategy budget accounting →
ledger append.  An unknown action raises `ValueError`, modelled as
`Except.error`. -/
def processItem (H : LedgerRecord → String → String) (gz : String → ℚ)
    (st : SystemState) (scores : ScoreVector) (meta : Meta) :
    Except String (LedgerRecord × SystemState) :=
  let snapBudget := st.ctx.budget
  let snapStage := st.ctx.reversibility
  let plan := st.engine.select scores meta (some snapBudget) (some snapStage)
  match registry gz plan.action with
  | none => Except.error ("Unknown strategy: " ++ plan.action)
  | some strat =>
    let rc := strat meta plan st.ctx
    let result := rc.1
    let ctx1 := rc.2
    let thresholds1 := learningUpdate st.engine.thresholds result.feedbackType
    let size := meta.sizeDefault1
    let ctx2 :=
      if plan.action = "delete" ∨ plan.action = "key_destroy" then
        { ctx1 with budget := recordUsage ctx1.budget (-size) 0 }
      else if plan.action = "compress" ∨ plan.action = "mask" ∨
          plan.action = "archive" ∨ plan.action = "semantic_preserve" then
        { ctx1 with budget := recordUsage ctx1.budget (-(0.5 * size)) 0 }
      else
        { ctx1 with budget := recordUsage ctx1.budget 0 0 }
    let engine1 := { st.engine with thresholds := thresholds1 }
    let record : LedgerRecord :=
      { scores := scores, plan := plan, result := result,
        contextBudget := snapBudget, contextStage := snapStage,
        policyThresholds := engine1.thresholds,
        policyClasses := engine1.class_policies,
        constraints :=
          { regulatory_hold := meta.regulatory_hold,
            protected_class := meta.protected_class,
            pii := meta.pii,
            allow_irreversible := meta.allow_irreversible,
            approval_token := meta.approval_token } }
    Except.ok (record,
      { engine := engine1, ctx := ctx2, ledger := st.ledger.log H record })

/-! ## In-memory storage adapter (core/storage_adapter.py)

Python dicts keyed by item id are modelled as functions into `Option`
(lookup by key); `time.time()` is passed in explicitly as `now`. -/

structure AdapterState where
  hot : String → Option String
  warm : String → Option String
  cold : String → Option String
  ttl_map : String → Option ℚ

/-- Source `StorageAdapter.__init__`: three empty tiers, empty TTL map. -/
def AdapterState.empty : AdapterState :=
  { hot := fun _ => none, warm := fun _ => none, cold := fun _ => none,
    ttl_map := fun _ => none }

/-- Dict entry assignment. -/
def setKey (f : String → Option α) (k : String) (v : α) : String → Option α :=
  fun x => if x = k then some v else f x

/-- Model of `self.tiers[tier][item_id] = content`: write the item into the one
named tier, leaving the other tier dicts untouched. -/
def tierInsert (st : AdapterState) (t item_id content : String) : AdapterState :=
  if t = "hot" then { st with hot := setKey st.hot item_id content }
  else if t = "warm" then { st with warm := setKey st.warm item_id content }
  else { st with cold := setKey st.cold item_id content }

/-- Source `StorageAdapter.move_to_tier`: unknown tier names fall back to
`"cold"`, the item is written into that one tier (other tiers untouched),
and a truthy `ttl` records the absolute expiry `now + ttl`. -/
def moveToTier (now : ℚ) (st : AdapterState) (item_id content tier : String)
    (ttl : Option ℚ) : AdapterState :=
  let t := if tier = "hot" ∨ tier = "warm" ∨ tier = "cold" then tier else "cold"
  let st2 := tierInsert st t item_id content
  match ttl with
  | some d =>
    if d = 0 then st2
    else { st2 with ttl_map := setKey st2.ttl_map item_id (now + d) }
  | none => st2

/-- An id's recorded expiry has passed (`now >= expire_at`). -/
def isExpired (now : ℚ) (st : AdapterState) (item_id : String) : Bool :=
  match st.ttl_map item_id with
  | some t => decide (t ≤ now)
  | none => false

/-- Source `StorageAdapter.purge_expired`: every id whose expiry has passed is
removed from all three tiers and from the TTL map. -/
def purgeExpired (now : ℚ) (st : AdapterState) : AdapterState :=
  { hot := fun x => if isExpired now st x then none else st.hot x,
    warm := fun x => if isExpired now st x then none else st.warm x,
    cold := fun x => if isExpired now st x then none else st.cold x,
    ttl_map := fun x => if isExpired now st x then none else st.ttl_map x }

/-- One adapter operation, with the wall-clock instant it runs at. -/
inductive StorageOp where
  | move (now : ℚ) (item_id content tier : String) (ttl : Option ℚ)
  | purge (now : ℚ)

/-- Run one operation. -/
def applyOp (st : AdapterState) : StorageOp → AdapterState
  | StorageOp.move now item_id content tier ttl => moveToTier now st item_id content tier ttl
  | StorageOp.purge now => purgeExpired now st

/-- Run a sequence of operations. -/
def applyOps (st : AdapterState) (ops : List StorageOp) : AdapterState :=
  ops.foldl applyOp st

/-- The item is currently held by some tier. -/
def inSomeTier (st : AdapterState) (item_id : String) : Prop :=
  st.hot item_id ≠ none ∨ st.warm item_id ≠ none ∨ st.cold item_id ≠ none

/-! ## Pipeline tier-move retry (core/pipeline.py) and missing methods

pipeline.py's module-level bindings come from its import statements and
its single class definition; the retry loop's `except` branch evaluates
the global name `time`, whose lookup fails when the name is unbound,
raising `NameError` out of the handler.  Attribute/method lookup on the
storage classes is modelled the same way, from the `def` statements each
class body actually contains (storage_adapter.py, storage/base.py,
storage/local_fs_adapter.py). -/

/-- The names pipeline.py binds at module scope: its four `typing` imports,
its four project imports, `Path`, and the class it defines.  `time` is not
among them. -/
def pipelineModuleGlobals : List String :=
  ["Any", "Dict", "Iterable", "Tuple", "StorageAdapter", "process_batch",
   "build_system", "LocalFSAdapter", "Path", "ForgettingPipeline"]

/-- Evaluating `time.sleep(0.05 * (2 ** attempt))` begins by resolving the
name `time`; an unbound global raises `NameError`. -/
def sleepBackoff : Except String Unit :=
  if "time" ∈ pipelineModuleGlobals then Except.ok ()
  else Except.error "NameError: name time is not defined"

/-- Outcome of `_move_with_retry`: the move's return value, an exception
escaping to the caller, or the all-attempts-failed path (ledger
`storage_move_failed` error event plus an error dict). -/
inductive RetryOutcome (α : Type) where
  | moved : α → RetryOutcome α
  | raised : String → RetryOutcome α
  | loggedFailure : RetryOutcome α
deriving Repr, DecidableEq

/-- The `for attempt in range(retries + 1)` loop of `_move_with_retry`:
each failing attempt runs the backoff sleep inside its `except` block
before the next iteration; an exception raised by the sleep itself
escapes the loop. -/
def moveAttempts (move : ℕ → Except String α) : ℕ → ℕ → RetryOutcome α
  | _, 0 => RetryOutcome.loggedFailure
  | attempt, fuel + 1 =>
    match move attempt with
    | Except.ok r => RetryOutcome.moved r
    | Except.error _ =>
      match sleepBackoff with
      | Except.ok _ => moveAttempts move (attempt + 1) fuel
      | Except.error e => RetryOutcome.raised e

/-- Source `ForgettingPipeline._move_with_retry` with its default `retries = 2`:
up to `retries + 1` attempts of `storage.move_to_tier`, whose behavior on
the n-th attempt is the collaborator `move n`. -/
def moveWithRetry (move : ℕ → Except String α) (retries : ℕ) : RetryOutcome α :=
  moveAttempts move 0 (retries + 1)

/-- Result of calling a method name on a Python object. -/
inductive MethodCall where
  | ok
  | attributeError (attr : String)
  | notImplementedError
deriving Repr, DecidableEq

/-- Methods the `StorageAdapter` class body defines (besides
`__init__`). -/
def storageAdapterMethods : List String := ["move_to_tier", "purge_expired"]

/-- Methods the `StorageBackend` base class declares; each body raises
`NotImplementedError`. -/
def storageBackendMethods : List String := ["move_to_tier", "purge_expired", "delete_item"]

/-- Methods the `LocalFSAdapter` class body overrides (besides
`__init__`). -/
def localFSAdapterMethods : List String := ["move_to_tier", "purge_expired"]

/-- Calling a method on the in-memory `StorageAdapter` (which subclasses
nothing): an undefined name is an `AttributeError`. -/
def callOnStorageAdapter (name : String) : MethodCall :=
  if name ∈ storageAdapterMethods then MethodCall.ok
  else MethodCall.attributeError name

/-- Calling a method on `LocalFSAdapter`: an un-overridden name falls back
to the `StorageBackend` stub, which raises `NotImplementedError`. -/
def callOnLocalFSAdapter (name : String) : MethodCall :=
  if name ∈ localFSAdapterMethods then MethodCall.ok
  else if name ∈ storageBackendMethods then MethodCall.notImplementedError
  else MethodCall.attributeError name

/-- Source `ForgettingPipeline.run` invokes `self.storage.delete_item(item_id)`
exactly for plans whose action is `delete` or `key_destroy` (with a
non-`None` item id). -/
def pipelineCallsDeleteItem (action : String) : Bool :=
  action = "delete" || action = "key_destroy"

/-! ## Helper lemmas -/

theorem le_advance (s n : ℤ) : s ≤ advance s n := by
  unfold advance; split <;> omega

theorem le_advanceAll (s : ℤ) (ns : List ℤ) : s ≤ advanceAll s ns := by
  induction ns generalizing s with
  | nil => simp [advanceAll]
  | cons n rest ih =>
    calc s ≤ advance s n := le_advance s n
    _ ≤ advanceAll (advance s n) rest := ih (advance s n)

theorem advanceAll_append_one (s : ℤ) (ns : List ℤ) (n : ℤ) :
    advanceAll s (ns ++ [n]) = advance (advanceAll s ns) n := by
  simp [advanceAll]

/-! ## Claim theorems -/

/-- C2: `ReversibilityState.advance` is monotonic.  For every starting
stage and every sequence of `advance` calls with arbitrary integer
arguments, the stage after each call is at least the stage before it
(both over the whole sequence and across one more call), and one more
call `advance(n)` sets the stage to `n` exactly when `n` exceeds the
current stage, leaving it unchanged otherwise. -/
theorem C2_advance_monotonic (s : ℤ) (ns : List ℤ) (n : ℤ) :
    s ≤ advanceAll s ns ∧
    advanceAll s ns ≤ advanceAll s (ns ++ [n]) ∧
    (advanceAll s ns < n → advanceAll s (ns ++ [n]) = n) ∧
    (¬ advanceAll s ns < n → advanceAll s (ns ++ [n]) = advanceAll s ns) := by
  refine ⟨le_advanceAll s ns, ?_, ?_, ?_⟩ <;>
    rw [advanceAll_append_one] <;> unfold advance <;> split <;> omega

/-- C2 witness: from stage 3, the calls advance(5), advance(2) leave
stage 5, and a further advance(9) sets it to 9. -/
theorem C2_advance_monotonic_witness :
    (3 : ℤ) ≤ advanceAll 3 [5, 2] ∧ advanceAll 3 ([5, 2] ++ [9]) = 9 :=
  ⟨(C2_advance_monotonic 3 [5, 2] 9).1,
   (C2_advance_monotonic 3 [5, 2] 9).2.2.1 (by decide)⟩

/-- C4: a metadata map with `regulatory_hold` truthy makes
`DecisionEngine.select` return action `retain`, for every engine
configuration, score vector, budget snapshot, reversibility snapshot and
remaining metadata content. -/
theorem C4_regulatory_hold_retains (e : DecisionEngine) (scores : ScoreVector)
    (meta : Meta) (budget : Option BudgetState) (rev : Option ℤ)
    (h : meta.regulatory_hold = true) :
    (e.select scores meta budget rev).action = "retain" := by
  simp [DecisionEngine.select, h]

/-- C4 witness: a concrete held item with conflicting pii/risk signals. -/
theorem C4_regulatory_hold_retains_witness :
    ({ regulatory_hold := true, pii := true, allow_irreversible := true } : Meta).regulatory_hold = true ∧
    (DecisionEngine.default.select
      { importance := 0, usage := 0, semantic := 0, temporal := 0,
        context := 0, risk := 1, redundancy := 1 }
      { regulatory_hold := true, pii := true, allow_irreversible := true }
      none (some 9)).action = "retain" :=
  ⟨rfl, C4_regulatory_hold_retains DecisionEngine.default
    { importance := 0, usage := 0, semantic := 0, temporal := 0,
      context := 0, risk := 1, redundancy := 1 }
    { regulatory_hold := true, pii := true, allow_irreversible := true }
    none (some 9) rfl⟩

/-- C7 (code bug): pipeline.py never imports `time`, so the `except`
branch of `_move_with_retry` raises `NameError` at its first failing
attempt; the failure propagates instead of being retried, logged as
`storage_move_failed`, or turned into an error record. -/
theorem C7_retry_raises_name_error (α : Type) (move : ℕ → Except String α)
    (e : String) (h : move 0 = Except.error e) (retries : ℕ) :
    moveWithRetry move retries = RetryOutcome.raised "NameError: name time is not defined" := by
  unfold moveWithRetry moveAttempts
  rw [h]
  rfl

/-- C7 witness: a backend that fails its first move. -/
theorem C7_retry_raises_name_error_witness :
    (fun _ : ℕ => (Except.error "disk full" : Except String Unit)) 0 = Except.error "disk full" ∧
    moveWithRetry (fun _ : ℕ => (Except.error "disk full" : Except String Unit)) 2 =
      RetryOutcome.raised "NameError: name time is not defined" :=
  ⟨rfl, C7_retry_raises_name_error Unit _ "disk full" rfl 2⟩

/-- C8 (code bug): `delete_item` is declared by the `StorageBackend`
interface and invoked by `ForgettingPipeline.run` for delete/key_destroy
plans, but the in-memory `StorageAdapter` never defines it (the call is
an `AttributeError`) and `LocalFSAdapter` inherits the
`NotImplementedError` stub, so no storage implementation removes the item
from its tiers. -/
theorem C8_delete_item_unimplemented :
    callOnStorageAdapter "delete_item" = MethodCall.attributeError "delete_item" ∧
    callOnLocalFSAdapter "delete_item" = MethodCall.notImplementedError ∧
    pipelineCallsDeleteItem "delete" = true ∧
    pipelineCallsDeleteItem "key_destroy" = true := by
  decide

/-- C5: with the default weights, the aggregate used by
`DecisionEngine.select` equals
`clip01(0.3·importance + 0.25·usage + 0.2·semantic + 0.15·temporal +
0.1·context − 0.25·redundancy + 0.2·risk)`: risk and redundancy carry
weight 0 in the linear sum and enter only through the fixed second-stage
adjustment, and the result lies in [0,1]. -/
theorem C5_aggregate_formula (s : ScoreVector) :
    DecisionEngine.default.aggregate s =
      clip01 (0.3 * s.importance + 0.25 * s.usage + 0.2 * s.semantic +
        0.15 * s.temporal + 0.1 * s.context - 0.25 * s.redundancy + 0.2 * s.risk) ∧
    0 ≤ DecisionEngine.default.aggregate s ∧
    DecisionEngine.default.aggregate s ≤ 1 := by
  refine ⟨?_, ?_, ?_⟩
  · show clip01 _ = clip01 _
    congr 1
    simp only [DecisionEngine.default]
    ring
  · exact le_max_left 0 _
  · exact max_le (by norm_num) (min_le_left 1 _)

/-- C6 counterexample: the stored 4-dimension rate (0.96667) is not
`1 − (1−0.5)(1−0.25)(1−0.33)(1−0.66)` (which is 0.914575); the table does
not realize the product formula. -/
theorem C6_counterexample :
    (profileData "X+Y+Z+T").mask_rate = 0.96667 ∧
    combinedRate [dimRate "X", dimRate "Y", dimRate "Z", dimRate "T"] = 0.914575 ∧
    (profileData "X+Y+Z+T").mask_rate ≠
      combinedRate [dimRate "X", dimRate "Y", dimRate "Z", dimRate "T"] := by
  refine ⟨rfl, ?_, ?_⟩ <;>
    simp [combinedRate, dimRate, profileData, MASKING_PROFILES, List.lookup] <;> norm_num

/-- C6 amended: the product formula `1 − Π(1−rate_d)` matches the stored
table only for the single dimensions and the two-dimension profiles
X+Y, X+Z, X+T and Y+T; the profiles Y+Z, Z+T, every three-dimension
profile and the four-dimension profile store hand-written constants that
deviate from it (4-dimension: 0.96667 versus formula value 0.914575).
The stored 4-dimension rate is strictly greater than every stored
3-dimension rate. -/
theorem C6_mask_rates_amended :
    ((profileData "X").mask_rate = combinedRate [dimRate "X"] ∧
     (profileData "Y").mask_rate = combinedRate [dimRate "Y"] ∧
     (profileData "Z").mask_rate = combinedRate [dimRate "Z"] ∧
     (profileData "T").mask_rate = combinedRate [dimRate "T"]) ∧
    ((profileData "X+Y").mask_rate = combinedRate [dimRate "X", dimRate "Y"] ∧
     (profileData "X+Z").mask_rate = combinedRate [dimRate "X", dimRate "Z"] ∧
     (profileData "X+T").mask_rate = combinedRate [dimRate "X", dimRate "T"] ∧
     (profileData "Y+T").mask_rate = combinedRate [dimRate "Y", dimRate "T"]) ∧
    ((profileData "Y+Z").mask_rate ≠ combinedRate [dimRate "Y", dimRate "Z"] ∧
     (profileData "Z+T").mask_rate ≠ combinedRate [dimRate "Z", dimRate "T"] ∧
     (profileData "X+Y+Z").mask_rate ≠ combinedRate [dimRate "X", dimRate "Y", dimRate "Z"] ∧
     (profileData "X+Y+T").mask_rate ≠ combinedRate [dimRate "X", dimRate "Y", dimRate "T"] ∧
     (profileData "X+Z+T").mask_rate ≠ combinedRate [dimRate "X", dimRate "Z", dimRate "T"] ∧
     (profileData "Y+Z+T").mask_rate ≠ combinedRate [dimRate "Y", dimRate "Z", dimRate "T"] ∧
     (profileData "X+Y+Z+T").mask_rate ≠
       combinedRate [dimRate "X", dimRate "Y", dimRate "Z", dimRate "T"]) ∧
    ((profileData "X+Y+Z").mask_rate < (profileData "X+Y+Z+T").mask_rate ∧
     (profileData "X+Y+T").mask_rate < (profileData "X+Y+Z+T").mask_rate ∧
     (profileData "X+Z+T").mask_rate < (profileData "X+Y+Z+T").mask_rate ∧
     (profileData "Y+Z+T").mask_rate < (profileData "X+Y+Z+T").mask_rate) := by
  refine ⟨⟨?_, ?_, ?_, ?_⟩, ⟨?_, ?_, ?_, ?_⟩, ⟨?_, ?_, ?_, ?_, ?_, ?_, ?_⟩, ⟨?_, ?_, ?_, ?_⟩⟩ <;>
    simp [combinedRate, dimRate, profileData, MASKING_PROFILES, List.lookup] <;> norm_num

theorem logAll_events (H : α → String → String) (l : Ledger α) (es : List α) :
    (Ledger.logAll H l es).events = l.events ++ chainEntries H l.last_hash es := by
  induction es generalizing l with
  | nil => simp [Ledger.logAll, chainEntries]
  | cons e rest ih =>
    show (Ledger.logAll H (l.log H e) rest).events = _
    rw [ih]
    simp [Ledger.log, chainEntries]

theorem chainEntries_spec (H : α → String → String) (prev : String) (es : List α) :
    ∀ (i : ℕ) (hi : i < (chainEntries H prev es).length),
      ((chainEntries H prev es).get ⟨i, hi⟩).hash =
        H ((chainEntries H prev es).get ⟨i, hi⟩).body
          ((chainEntries H prev es).get ⟨i, hi⟩).prev_hash ∧
      (i = 0 → ((chainEntries H prev es).get ⟨i, hi⟩).prev_hash = prev) ∧
      ∀ (hj : i + 1 < (chainEntries H prev es).length),
        ((chainEntries H prev es).get ⟨i + 1, hj⟩).prev_hash =
          ((chainEntries H prev es).get ⟨i, hi⟩).hash := by
  induction es generalizing prev with
  | nil => intro i hi; simp [chainEntries] at hi
  | cons e rest ih =>
    intro i hi
    cases i with
    | zero =>
      refine ⟨rfl, fun _ => rfl, fun hj => ?_⟩
      cases rest with
      | nil => simp [chainEntries] at hj
      | cons e2 rest2 =>
        have h2 := (ih (H e prev) 0 (by simp [chainEntries])).2.1 rfl
        exact h2
    | succ j =>
      have hj' : j < (chainEntries H (H e prev) rest).length := by
        simpa [chainEntries] using hi
      have hrec := ih (H e prev) j hj'
      exact ⟨hrec.1, fun h => absurd h (Nat.succ_ne_zero j),
        fun hk => hrec.2.2 (by simpa [chainEntries] using hk)⟩

/-- C1: the ledger hash chain.  For every digest collaborator `H`
(standing for SHA-256 over the JSON serialization that includes
`prev_hash` and excludes `hash`) and every sequence of `Ledger.log`
calls on a fresh ledger, the entry at index 0 has `prev_hash = ""`,
each entry's `hash` is `H` of its own body and `prev_hash`, and each
entry at index i+1 has `prev_hash` equal to the hash of entry i. -/
theorem C1_ledger_hash_chain (α : Type) (H : α → String → String) (es : List α)
    (i : ℕ) (entry : LedgerEntry α)
    (h : (Ledger.logAll H (Ledger.empty α) es).events.get? i = some entry) :
    entry.hash = H entry.body entry.prev_hash ∧
    (i = 0 → entry.prev_hash = "") ∧
    ∀ entry2, (Ledger.logAll H (Ledger.empty α) es).events.get? (i + 1) = some entry2 →
      entry2.prev_hash = entry.hash := by
  have hev : (Ledger.logAll H (Ledger.empty α) es).events = chainEntries H "" es := by
    rw [logAll_events]; rfl
  rw [hev] at h
  rw [List.get?_eq_some] at h
  obtain ⟨hi, hget⟩ := h
  obtain ⟨h1, h2, h3⟩ := chainEntries_spec H "" es i hi
  refine ⟨by rw [← hget]; exact h1, by rw [← hget]; exact h2, ?_⟩
  intro entry2 h2'
  rw [hev, List.get?_eq_some] at h2'
  obtain ⟨hj, hget2⟩ := h2'
  rw [← hget, ← hget2]
  exact h3 hj

/-- C1 witness: two concrete log calls with a concrete digest function. -/
theorem C1_ledger_hash_chain_witness :
    (Ledger.logAll (fun (n : ℕ) (p : String) => toString n ++ p)
        (Ledger.empty ℕ) [5, 7]).events.get? 0 =
      some { body := 5, prev_hash := "", hash := "5" } ∧
    (("5" : String) = (fun (n : ℕ) (p : String) => toString n ++ p) 5 "" ∧
     ((0 : ℕ) = 0 → ("" : String) = "") ∧
     ∀ entry2, (Ledger.logAll (fun (n : ℕ) (p : String) => toString n ++ p)
        (Ledger.empty ℕ) [5, 7]).events.get? (0 + 1) = some entry2 →
       entry2.prev_hash = "5") :=
  ⟨by rfl,
   C1_ledger_hash_chain ℕ (fun (n : ℕ) (p : String) => toString n ++ p) [5, 7] 0
     { body := 5, prev_hash := "", hash := "5" } (by rfl)⟩

/-- C3 counterexample: the irreversibility gate is only rule 6 of the
cascade, so at stage 7 an item with `protected_class` truthy and
`allow_irreversible` truthy but no approval token yields `preserve`, not
`retain` as the claim states for "any subsequent item". -/
theorem C3_counterexample :
    (DecisionEngine.default.select
      { importance := 0, usage := 0, semantic := 0, temporal := 0,
        context := 0, risk := 0, redundancy := 0 }
      { protected_class := true, allow_irreversible := true }
      none (some 7)).action = "preserve" ∧
    ("preserve" : String) ≠ "retain" := by
  constructor
  · simp [DecisionEngine.select]
  · decide

/-- C3 amended: once the reversibility snapshot is ≥ 7 (and ≤ 9, the
system's ratchet ceiling), for any item on which no higher-priority rule
fires (no regulatory hold, no protected class, no class policy, not
PII-flagged, risk below the keep threshold): with `allow_irreversible`
and no approval token `select` returns `retain`; with both flags it
returns `key_destroy` targeting stage 9, and applying `KeyDestroy` to
that plan advances the stage to 9; with `allow_irreversible` unset it
returns `retain`. -/
theorem C3_gate_amended (scores : ScoreVector) (meta : Meta)
    (budget : Option BudgetState) (r : ℤ) (ctx : Context)
    (hr7 : 7 ≤ r) (hctx : ctx.reversibility ≤ 9)
    (h1 : meta.regulatory_hold = false) (h2 : meta.protected_class = false)
    (h3 : meta.dataClass = none) (h4 : meta.pii = false)
    (h5 : scores.risk < 0.7) :
    (meta.allow_irreversible = true → meta.approval_token = false →
      (DecisionEngine.default.select scores meta budget (some r)).action = "retain") ∧
    (meta.allow_irreversible = true → meta.approval_token = true →
      (DecisionEngine.default.select scores meta budget (some r)).action = "key_destroy" ∧
      (DecisionEngine.default.select scores meta budget (some r)).target_stage = some 9 ∧
      (keyDestroyApply meta
        (DecisionEngine.default.select scores meta budget (some r)) ctx).2.reversibility = 9) ∧
    (meta.allow_irreversible = false →
      (DecisionEngine.default.select scores meta budget (some r)).action = "retain") := by
  have hrisk : ¬ DecisionEngine.default.risk_keep_threshold ≤ scores.risk := by
    simp only [DecisionEngine.default]
    exact not_le.mpr h5
  have hsel : DecisionEngine.default.select scores meta budget (some r) =
      (if meta.allow_irreversible then
        if !meta.approval_token then
          { action := "retain", rationale := some "Irreversible requires approval token" }
        else
          { action := "key_destroy", target_stage := some 9,
            rationale := some "Irreversible gate approved" }
      else
        { action := "retain", rationale := some "Irreversible gate blocked" } : StrategyPlan) := by
    simp [DecisionEngine.select, DecisionEngine.classPolicy, h1, h2, h3, h4, hrisk, hr7]
  refine ⟨?_, ?_, ?_⟩
  · intro ha ht
    rw [hsel]
    simp [ha, ht]
  · intro ha ht
    rw [hsel]
    simp only [ha, ht]
    refine ⟨rfl, rfl, ?_⟩
    simp [keyDestroyApply, ha, advance]
    omega
  · intro ha
    rw [hsel]
    simp [ha]

/-- C3 amended witness: a plain item at stage 7 with both flags set. -/
theorem C3_gate_amended_witness :
    ((7 : ℤ) ≤ 7 ∧ (0 : ℤ) ≤ 9 ∧ (0 : ℚ) < 0.7) ∧
    ((DecisionEngine.default.select
        { importance := 0, usage := 0, semantic := 0, temporal := 0,
          context := 0, risk := 0, redundancy := 0 }
        { allow_irreversible := true, approval_token := true }
        none (some 7)).action = "key_destroy" ∧
      (DecisionEngine.default.select
        { importance := 0, usage := 0, semantic := 0, temporal := 0,
          context := 0, risk := 0, redundancy := 0 }
        { allow_irreversible := true, approval_token := true }
        none (some 7)).target_stage = some 9 ∧
      (keyDestroyApply { allow_irreversible := true, approval_token := true }
        (DecisionEngine.default.select
          { importance := 0, usage := 0, semantic := 0, temporal := 0,
            context := 0, risk := 0, redundancy := 0 }
          { allow_irreversible := true, approval_token := true }
          none (some 7))
        { budget := BudgetState.init, reversibility := 0 }).2.reversibility = 9) :=
  ⟨⟨le_refl 7, by norm_num, by norm_num⟩,
   (C3_gate_amended
      { importance := 0, usage := 0, semantic := 0, temporal := 0,
        context := 0, risk := 0, redundancy := 0 }
      { allow_irreversible := true, approval_token := true }
      none 7 { budget := BudgetState.init, reversibility := 0 }
      (le_refl 7) (by norm_num) rfl rfl rfl rfl (by norm_num)).2.1 rfl rfl⟩

theorem tierInsert_self (st : AdapterState) (t item_id content : String) :
    inSomeTier (tierInsert st t item_id content) item_id := by
  unfold tierInsert inSomeTier
  split_ifs <;> simp [setKey]

theorem tierInsert_other (st : AdapterState) (t item_id content : String)
    (x : String) (hx : x ≠ item_id) :
    (tierInsert st t item_id content).hot x = st.hot x ∧
    (tierInsert st t item_id content).warm x = st.warm x ∧
    (tierInsert st t item_id content).cold x = st.cold x := by
  unfold tierInsert
  split_ifs <;> simp [setKey, hx]

theorem tierInsert_ttl (st : AdapterState) (t item_id content : String) :
    (tierInsert st t item_id content).ttl_map = st.ttl_map := by
  unfold tierInsert
  split_ifs <;> rfl

theorem moveToTier_self (now : ℚ) (st : AdapterState) (item_id content tier : String)
    (ttl : Option ℚ) :
    inSomeTier (moveToTier now st item_id content tier ttl) item_id := by
  unfold moveToTier
  cases ttl with
  | none => exact tierInsert_self st _ item_id content
  | some d =>
    by_cases hd : d = 0
    · simpa [hd] using tierInsert_self st _ item_id content
    · simpa [hd, inSomeTier] using tierInsert_self st _ item_id content

theorem moveToTier_other (now : ℚ) (st : AdapterState) (item_id content tier : String)
    (ttl : Option ℚ) (x : String) (hx : x ≠ item_id) :
    (moveToTier now st item_id content tier ttl).hot x = st.hot x ∧
    (moveToTier now st item_id content tier ttl).warm x = st.warm x ∧
    (moveToTier now st item_id content tier ttl).cold x = st.cold x ∧
    (moveToTier now st item_id content tier ttl).ttl_map x = st.ttl_map x := by
  unfold moveToTier
  obtain ⟨e1, e2, e3⟩ := tierInsert_other st
    (if tier = "hot" ∨ tier = "warm" ∨ tier = "cold" then tier else "cold")
    item_id content x hx
  have e4 := tierInsert_ttl st
    (if tier = "hot" ∨ tier = "warm" ∨ tier = "cold" then tier else "cold")
    item_id content
  cases ttl with
  | none => exact ⟨e1, e2, e3, congrFun e4 x⟩
  | some d =>
    by_cases hd : d = 0
    · simp only [hd, if_pos rfl]
      exact ⟨e1, e2, e3, congrFun e4 x⟩
    · simp only [hd, if_neg hd]
      refine ⟨e1, e2, e3, ?_⟩
      show setKey (tierInsert st _ item_id content).ttl_map item_id (now + d) x = st.ttl_map x
      rw [e4]
      simp [setKey, hx]

theorem inv_applyOp (st : AdapterState) (op : StorageOp)
    (h : ∀ x, st.ttl_map x ≠ none → inSomeTier st x) :
    ∀ x, (applyOp st op).ttl_map x ≠ none → inSomeTier (applyOp st op) x := by
  cases op with
  | move now item_id content tier ttl =>
    intro x hx
    by_cases hxi : x = item_id
    · subst hxi
      exact moveToTier_self now st x content tier ttl
    · obtain ⟨e1, e2, e3, e4⟩ := moveToTier_other now st item_id content tier ttl x hxi
      show inSomeTier (moveToTier now st item_id content tier ttl) x
      unfold inSomeTier
      rw [e1, e2, e3]
      apply h
      show st.ttl_map x ≠ none
      rw [← e4]
      exact hx
  | purge now =>
    intro x hx
    have hexp : isExpired now st x = false := by
      revert hx
      show (purgeExpired now st).ttl_map x ≠ none → _
      unfold purgeExpired
      cases hb : isExpired now st x <;> simp [hb]
    have hx' : st.ttl_map x ≠ none := by
      revert hx
      show (purgeExpired now st).ttl_map x ≠ none → _
      unfold purgeExpired
      simp [hexp]
    have hsome := h x hx'
    show inSomeTier (purgeExpired now st) x
    unfold inSomeTier purgeExpired at *
    simpa [hexp] using hsome

theorem inv_applyOps (ops : List StorageOp) :
    ∀ st : AdapterState, (∀ x, st.ttl_map x ≠ none → inSomeTier st x) →
      ∀ x, (applyOps st ops).ttl_map x ≠ none → inSomeTier (applyOps st ops) x := by
  induction ops with
  | nil => intro st h; exact h
  | cons op rest ih =>
    intro st h
    exact ih (applyOp st op) (inv_applyOp st op h)

/-- C9 counterexample: `move_to_tier` never removes the item from its
previous tier, so after moving id "a" (with a TTL) to `hot` and then to
`warm`, the id is tracked in `ttl_map` yet stored in two tiers at once —
not "exactly one", and not "only the new tier". -/
theorem C9_counterexample :
    (applyOps AdapterState.empty
      [StorageOp.move 0 "a" "c1" "hot" (some 100),
       StorageOp.move 1 "a" "c2" "warm" none]).ttl_map "a" = some 100 ∧
    (applyOps AdapterState.empty
      [StorageOp.move 0 "a" "c1" "hot" (some 100),
       StorageOp.move 1 "a" "c2" "warm" none]).hot "a" = some "c1" ∧
    (applyOps AdapterState.empty
      [StorageOp.move 0 "a" "c1" "hot" (some 100),
       StorageOp.move 1 "a" "c2" "warm" none]).warm "a" = some "c2" := by
  refine ⟨?_, ?_, ?_⟩ <;>
    simp [applyOps, applyOp, moveToTier, tierInsert, setKey, AdapterState.empty]

/-- C9 amended: after any sequence of `move_to_tier` / `purge_expired`
operations on a fresh adapter, every id present in `ttl_map` is stored in
at least one of the hot/warm/cold tiers until purged (moving an id to a
different tier leaves the old copy in place, so residency in exactly one
tier does not hold). -/
theorem C9_ttl_ids_reside_somewhere (ops : List StorageOp) (item_id : String)
    (h : (applyOps AdapterState.empty ops).ttl_map item_id ≠ none) :
    inSomeTier (applyOps AdapterState.empty ops) item_id := by
  refine inv_applyOps ops AdapterState.empty ?_ item_id h
  intro x hx
  exact absurd rfl hx

/-- C9 amended witness: one concrete move with a TTL. -/
theorem C9_ttl_ids_reside_somewhere_witness :
    (applyOps AdapterState.empty [StorageOp.move 0 "a" "c" "hot" (some 5)]).ttl_map "a" ≠ none ∧
    inSomeTier (applyOps AdapterState.empty [StorageOp.move 0 "a" "c" "hot" (some 5)]) "a" :=
  ⟨by simp [applyOps, applyOp, moveToTier, tierInsert, setKey, AdapterState.empty],
   C9_ttl_ids_reside_somewhere [StorageOp.move 0 "a" "c" "hot" (some 5)] "a"
     (by simp [applyOps, applyOp, moveToTier, tierInsert, setKey, AdapterState.empty])⟩

/-- C10: the storage delta is applied twice for a delete plan — once by
`Delete.apply` and once by the orchestrator's post-strategy accounting —
so `process_item` on an item of declared size `s` whose plan action is
`delete` moves storage utilization from `u` to
`max 0 (max 0 (u − s) − s)`. -/
theorem C10_delete_budget_double_count (H : LedgerRecord → String → String)
    (gz : String → ℚ) (st : SystemState) (scores : ScoreVector) (meta : Meta) (s : ℚ)
    (hsize : meta.size_bytes = some s)
    (hplan : (st.engine.select scores meta (some st.ctx.budget)
        (some st.ctx.reversibility)).action = "delete") :
    ∃ rec st2,
      processItem H gz st scores meta = Except.ok (rec, st2) ∧
      st2.ctx.budget.storage_util =
        max 0 (max 0 (st.ctx.budget.storage_util - s) - s) := by
  have hreg : registry gz "delete" = some deleteApply := rfl
  simp only [processItem, hplan, hreg]
  refine ⟨_, _, rfl, ?_⟩
  simp [deleteApply, recordUsage, Meta.sizeDefault1, hsize, sub_eq_add_neg]

/-- C10 witness: a low-score redundant item of size 2 under budget
pressure (utilization 5 ≥ budget 1) is deleted and the final utilization
is `max 0 (max 0 (5 − 2) − 2) = 1`. -/
theorem C10_delete_budget_double_count_witness :
    ({ size_bytes := some 2 } : Meta).size_bytes = some 2 ∧
    (DecisionEngine.default.select
      { importance := 0, usage := 0, semantic := 0, temporal := 0,
        context := 0, risk := 0, redundancy := 1 }
      { size_bytes := some 2 }
      (some { storage_budget := 1, semantic_budget := 1, storage_util := 5, semantic_util := 0 })
      (some 0)).action = "delete" ∧
    ∃ rec st2,
      processItem (fun _ _ => "") (fun _ => 0)
        { engine := DecisionEngine.default,
          ctx := { budget := { storage_budget := 1, semantic_budget := 1,
                               storage_util := 5, semantic_util := 0 },
                   reversibility := 0 },
          ledger := Ledger.empty LedgerRecord }
        { importance := 0, usage := 0, semantic := 0, temporal := 0,
          context := 0, risk := 0, redundancy := 1 }
        { size_bytes := some 2 } = Except.ok (rec, st2) ∧
      st2.ctx.budget.storage_util = max 0 (max 0 ((5 : ℚ) - 2) - 2) :=
  ⟨rfl,
   by norm_num [DecisionEngine.select, DecisionEngine.selectByScore,
     DecisionEngine.aggregate, DecisionEngine.default, DecisionEngine.classPolicy,
     DecisionEngine.budgetPressure, clip01],
   C10_delete_budget_double_count (fun _ _ => "") (fun _ => 0)
     { engine := DecisionEngine.default,
       ctx := { budget := { storage_budget := 1, semantic_budget := 1,
                            storage_util := 5, semantic_util := 0 },
                reversibility := 0 },
       ledger := Ledger.empty LedgerRecord }
     { importance := 0, usage := 0, semantic := 0, temporal := 0,
       context := 0, risk := 0, redundancy := 1 }
     { size_bytes := some 2 } 2 rfl
     (by norm_num [DecisionEngine.select, DecisionEngine.selectByScore,
       DecisionEngine.aggregate, DecisionEngine.default, DecisionEngine.classPolicy,
       DecisionEngine.budgetPressure, clip01])⟩

end Manggaak
